import Mathlib

/-!
Shallow embedding of the fullscreen4wikicommons Wikimedia Commons image
viewer (main.py): the category lister (ImageLoaderWorker.get_commons_files
and ImageLoaderWorker.run), the structured-metadata resolver
(WikimediaImageViewer.get_structured_data), and the viewer's navigation
state (display_current_image, show_previous_image, show_next_image,
show_image_bynumber), together with theorems settling the specification
claims about them.

The repository ships two variants of the worker; main.py (raw HTTP calls
to the MediaWiki API) is the one the specification's normative sections
describe, and it is the variant embedded here.  mail.py is the superseded
pywikibot draft of the same program.
-/

/-- One member record returned by a page of the MediaWiki categorymembers
listing: its namespace number (6 = file, 14 = subcategory) and its title
string, exactly the two fields get_commons_files reads. -/
structure Member where
  ns : Nat
  title : String
deriving DecidableEq

/-- One response page of the categorymembers listing: the member records
it carries and whether the response holds a "continue" token (main.py
line 64: `"continue" in response`). -/
structure Page where
  members : List Member
  hasContinue : Bool
deriving DecidableEq

/-- The remote Wikimedia Commons category table, modelled as the sequence
of response pages the API serves for each requested category title.  The
pagination loop in get_commons_files consumes these pages in order,
following the continue token; a well-formed backend ends each sequence
with a page whose hasContinue is false. -/
def Backend := String → List Page

/-- The pagination loop of get_commons_files (main.py lines 50-67):
collect the members of each page in order, requesting the next page
while the response carries a continue token. -/
def processPages : List Page → List Member
  | [] => []
  | p :: rest => p.members ++ (if p.hasContinue then processPages rest else [])

/-- Category-name normalization at the top of get_commons_files (main.py
lines 35-36): prefix "Category:" when absent.  Python's
str.startswith is the character-list prefix test. -/
def normalizeCat (category_name : String) : String :=
  if "Category:".data.isPrefixOf category_name.data then category_name
  else "Category:" ++ category_name

/-- ASCII lowercasing of one character, the model of Python str.lower()
as applied by the extension filter (main.py line 55).  Python lowercases
the full Unicode repertoire; the filter only ever compares against ASCII
suffixes, for which this character table is exact. -/
def lowerChar : Char → Char
  | 'A' => 'a'
  | 'B' => 'b'
  | 'C' => 'c'
  | 'D' => 'd'
  | 'E' => 'e'
  | 'F' => 'f'
  | 'G' => 'g'
  | 'H' => 'h'
  | 'I' => 'i'
  | 'J' => 'j'
  | 'K' => 'k'
  | 'L' => 'l'
  | 'M' => 'm'
  | 'N' => 'n'
  | 'O' => 'o'
  | 'P' => 'p'
  | 'Q' => 'q'
  | 'R' => 'r'
  | 'S' => 's'
  | 'T' => 't'
  | 'U' => 'u'
  | 'V' => 'v'
  | 'W' => 'w'
  | 'X' => 'x'
  | 'Y' => 'y'
  | 'Z' => 'z'
  | c => c

/-- The character list of a title after Python's .lower(). -/
def lowerData (title : String) : List Char := title.data.map lowerChar

/-- The tuple of suffixes passed to str.endswith in main.py lines 55-57,
in source order. -/
def image_suffixes : List (List Char) :=
  [".jpg".data, ".jpeg".data, ".png".data, ".gif".data,
   ".svg".data, ".webp".data, ".tiff".data, ".tif".data,
   ".bmp".data, ".ico".data]

/-- The extension filter applied to a file-namespace member title
(main.py lines 55-57): `member["title"].lower().endswith((...))`. -/
def extCheck (title : String) : Bool :=
  image_suffixes.any (fun s => s.isSuffixOf (lowerData title))

/-- The member dispatch in the body of the pagination loop (main.py
lines 53-61): a file-namespace member is appended when it passes the
extension filter; a subcategory member triggers the recursive call when
one is permitted at the current depth (modelled by the optional
recursion function); any other member is skipped. -/
def memberStep (recurseInto : Option (String → List String))
    (acc : List String) (m : Member) : List String :=
  if m.ns = 6 then
    if extCheck m.title then acc ++ [m.title] else acc
  else if m.ns = 14 then
    match recurseInto with
    | some g => acc ++ g m.title
    | none => acc
  else acc

/-- ImageLoaderWorker.get_commons_files (main.py lines 29-69): normalize
the category name, walk the paginated member listing, accept qualifying
file titles, recurse into subcategories while depth > 0 (with depth - 1),
and deduplicate the accumulated titles via `list(set(files))`.  Python's
set iteration order is unspecified; List.dedup realises the same
underlying set (the caller re-sorts, so no downstream value depends on
this order).  The recursion is structural in depth, which is the
termination argument for the source as well: every recursive call uses
depth - 1 under the guard depth > 0. -/
def get_commons_files (B : Backend) : Nat → String → List String
  | 0, category_name =>
      ((processPages (B (normalizeCat category_name))).foldl
        (memberStep none) []).dedup
  | depth + 1, category_name =>
      ((processPages (B (normalizeCat category_name))).foldl
        (memberStep (some (fun sub => get_commons_files B depth sub))) []).dedup

/-- Python's string comparison (lexicographic by code point), on the
character lists of the two strings. -/
def strLeb : List Char → List Char → Bool
  | [], _ => true
  | _ :: _, [] => false
  | a :: as, b :: bs => if a = b then strLeb as bs else decide (a < b)

/-- The order Python's sorted() uses on strings. -/
def pyStrLe (a b : String) : Prop := strLeb a.data b.data = true

instance : DecidableRel pyStrLe := fun a b => by
  unfold pyStrLe; infer_instance

/-- The post-processing in ImageLoaderWorker.run (main.py line 164):
`sorted(list(set(image_files)))`.  insertionSort over pyStrLe is
extensionally the Python sorted() of the deduplicated list: both produce
the unique pyStrLe-sorted permutation. -/
def sortedSet (l : List String) : List String :=
  (l.dedup).insertionSort pyStrLe

/-- The Category Lister contract of the specification: the listing the
worker's run computes for a category at the fixed recursion depth 1
(main.py lines 92 and 164). -/
def list_files (B : Backend) (category_name : String) : List String :=
  sortedSet (get_commons_files B 1 category_name)

/-- The events an ImageLoaderWorker emits, in emission order. -/
inductive Event where
  | progress (msg : String)
  | finished (files : List String)
  | error (msg : String)
deriving DecidableEq

/-- ImageLoaderWorker.run of main.py (lines 79-176) as the list of events
it emits, given the moment the liveness flag is cleared.  The run body
polls `self._is_running` exactly twice (lines 82 and 87), both before the
category fetch; cancelAt is the number of polls that still observe the
flag as set, so poll k reads true iff k < cancelAt (stop() is the only
writer and only ever clears the flag).  The commented-out block of run is
not part of the program; after it, run unconditionally sorts, emits a
progress message and emits finished.  The backend is modelled as total,
so the `except` arms (which alone re-check the flag) are not reached. -/
def mainRunEvents (B : Backend) (cancelAt : Nat) (category_name : String) :
    List Event :=
  if cancelAt = 0 then []
  else
    Event.progress "Initializing Wikimedia Commons connection..." ::
    if cancelAt = 1 then []
    else
      Event.progress ("Loading category: " ++ category_name ++ "...") ::
      [Event.progress ("Successfully loaded " ++
          toString (list_files B category_name).length ++ " images"),
       Event.finished (list_files B category_name)]

/-- The navigation state owned by WikimediaImageViewer: the loaded file
list and the cursor (main.py lines 355-356).  current_index is an Int
because Python assigns show_image_bynumber's raw value to it, with no
range restriction. -/
structure ViewerState where
  image_files : List String
  current_index : Int
deriving DecidableEq

/-- Python list indexing l[i]: nonnegative indices from the front,
negative indices from the back, IndexError (none) otherwise. -/
def pyGet (l : List String) (i : Int) : Option String :=
  if 0 ≤ i then l[i.toNat]?
  else if (-i).toNat ≤ l.length then l[(l.length - (-i).toNat)]?
  else none

/-- WikimediaImageViewer.display_current_image (main.py lines 623-625):
the guard `if not self.image_files or self.current_index >= len(...)`
returns immediately, displaying nothing; otherwise the method reads
image_files[current_index] and renders it.  The method assigns neither
image_files nor current_index on any path, so the viewer state is
unchanged in every case; this function returns the title it goes on to
display, or none when the guard fires. -/
def displayTarget (s : ViewerState) : Option String :=
  if s.image_files = [] ∨ (s.image_files.length : Int) ≤ s.current_index then
    none
  else pyGet s.image_files s.current_index

/-- WikimediaImageViewer.show_previous_image (main.py lines 950-956). -/
def show_previous_image (s : ViewerState) : ViewerState :=
  if s.image_files.length ≤ 1 then s
  else { s with current_index :=
          (s.current_index - 1) % (s.image_files.length : Int) }

/-- WikimediaImageViewer.show_next_image (main.py lines 958-964). -/
def show_next_image (s : ViewerState) : ViewerState :=
  if s.image_files.length ≤ 1 then s
  else { s with current_index :=
          (s.current_index + 1) % (s.image_files.length : Int) }

/-- WikimediaImageViewer.show_image_bynumber (main.py lines 966-973):
after the length guard, the text-field value is assigned to the cursor
with no range check, then display_current_image runs. -/
def show_image_bynumber (s : ViewerState) (gotonumber : Int) : ViewerState :=
  if s.image_files.length ≤ 1 then s
  else { s with current_index := gotonumber }

/-- One P275 (copyright license) statement as get_structured_data consumes
it (main.py lines 291-308).  The outer Option models the presence of the
"mainsnak" key, the inner the presence of "datavalue" beneath it; the
String is the entity id read through ["datavalue"]["value"]["id"]. -/
structure LicenseClaim where
  mainsnak : Option (Option String)
deriving DecidableEq

/-- One P170 (creator) statement as get_structured_data consumes it
(main.py lines 311-335).  hasMainsnak is the `"mainsnak" in claim` test;
mainsnakId is the id behind ["mainsnak"]["datavalue"]["value"]["id"],
with none modelling a missing datavalue (a KeyError when the else branch
reads it); qualifiersP2093 is the "P2093" entry of "qualifiers" when
both keys exist, each qualifier carrying its optional
["datavalue"]["value"] text. -/
structure CreatorClaim where
  hasMainsnak : Bool
  mainsnakId : Option String
  qualifiersP2093 : Option (List (Option String))
deriving DecidableEq

/-- The wbgetentities label service: the English label of an entity id,
when one exists (main.py lines 296-307 and 322-333). -/
def EntityLabels := String → Option String

/-- One iteration of the P275 loop of get_structured_data (main.py lines
291-308): a statement carrying a mainsnak with a datavalue overwrites
license_name with the referenced entity's English label, falling back to
the raw id (`.get("value", license_qid)`); a statement without one is
skipped. -/
def licenseStep (labels : EntityLabels) (license_name : String)
    (c : LicenseClaim) : String :=
  match c.mainsnak with
  | some (some license_qid) => (labels license_qid).getD license_qid
  | _ => license_name

/-- The whole P275 loop of get_structured_data (main.py lines 287-308).
The initial value is the "Unknown license" of line 287; an absent P275
key is the empty statement list. -/
def licenseFold (labels : EntityLabels) (claims : List LicenseClaim) : String :=
  claims.foldl (licenseStep labels) "Unknown license"

/-- The entity id a P275 statement contributes: present exactly when the
statement enters the if branch of main.py line 293. -/
def licenseQid (c : LicenseClaim) : Option String :=
  c.mainsnak.bind id

/-- One iteration of the P170 loop of get_structured_data (main.py lines
312-335).  A statement with a P2093 qualifier list assigns the first
qualifier's text (empty string when the qualifier has no datavalue) when
the list is nonempty; otherwise the else branch reads
claim["mainsnak"]["datavalue"]["value"]["id"] - a KeyError (modelled as
Except.error) when the datavalue is missing - and assigns the entity's
label, fallback raw id, only when author_name is still empty. -/
def creatorStep (labels : EntityLabels) (author_name : String)
    (c : CreatorClaim) : Except String String :=
  if c.hasMainsnak then
    match c.qualifiersP2093 with
    | some author_qualifiers =>
        match author_qualifiers with
        | [] => Except.ok author_name
        | q :: _ => Except.ok (q.getD "")
    | none =>
        match c.mainsnakId with
        | none => Except.error "KeyError"
        | some author_qid =>
            Except.ok (if author_name = ""
              then (labels author_qid).getD author_qid
              else author_name)
  else Except.ok author_name

/-- The license/author record get_structured_data returns on success
(main.py lines 337-340). -/
structure SDResult where
  license : String
  author : String
deriving DecidableEq

/-- WikimediaImageViewer.get_structured_data, statement-extraction part
(main.py lines 286-344): resolve the license from the P275 statements
and the author from the P170 statements, initialised to "Unknown
license" and "".  Any exception inside the try block - in particular the
KeyError of the P170 else branch - makes the whole call return the empty
dict, modelled as none.  An absent statement key is the empty list. -/
def get_structured_data (labels : EntityLabels)
    (p275 : List LicenseClaim) (p170 : List CreatorClaim) : Option SDResult :=
  let license_name := licenseFold labels p275
  match p170.foldlM (creatorStep labels) "" with
  | Except.ok author_name => some { license := license_name, author := author_name }
  | Except.error _ => none

/-- display_current_image's read of the resolver result (main.py line
647): `structured_data.get("license", "Unknown license")` - the default
applies exactly when get_structured_data returned the empty dict. -/
def displayedLicense (r : Option SDResult) : String :=
  match r with
  | some d => d.license
  | none => "Unknown license"

/-- display_current_image's read of the resolver result (main.py line
648): `structured_data.get("author", "")`. -/
def displayedAuthor (r : Option SDResult) : String :=
  match r with
  | some d => d.author
  | none => ""

/-- A backend on which every category serves a single page with no
members and no continue token: every traversal yields zero qualifying
titles. -/
def emptyBackend : Backend := fun _ => [{ members := [], hasContinue := false }]

/-- A backend on which every category serves one page holding a single
qualifying file. -/
def oneFileBackend : Backend :=
  fun _ => [{ members := [{ ns := 6, title := "File:Cat.jpg" }], hasContinue := false }]

/-- The backend of the pagination scenario: Category:Example serves the
files A.jpg, B.jpg, B.jpg across two pages joined by a continue token. -/
def twoPageBackend : Backend := fun c =>
  if c = "Category:Example" then
    [{ members := [{ ns := 6, title := "A.jpg" }], hasContinue := true },
     { members := [{ ns := 6, title := "B.jpg" }, { ns := 6, title := "B.jpg" }],
       hasContinue := false }]
  else [{ members := [], hasContinue := false }]

/-- The backend of the cycle scenario: Category:A lists the file X.jpg
and itself as a subcategory, so its subcategory graph reaches it again. -/
def cyclicBackend : Backend := fun c =>
  if c = "Category:A" then
    [{ members := [{ ns := 6, title := "X.jpg" },
                   { ns := 14, title := "Category:A" }], hasContinue := false }]
  else [{ members := [], hasContinue := false }]

/-- A ten-item file list, for the out-of-range jump scenario. -/
def tenFiles : List String :=
  ["f01.jpg", "f02.jpg", "f03.jpg", "f04.jpg", "f05.jpg",
   "f06.jpg", "f07.jpg", "f08.jpg", "f09.jpg", "f10.jpg"]

/-- C9: on a loaded list of length N > 1 and a valid cursor, "next" maps
N-1 to 0 and otherwise increments, "previous" maps 0 to N-1 and
otherwise decrements; the file list is untouched. -/
theorem c9_navigation_wraparound (files : List String) (i : Int)
    (hN : 1 < files.length) (h0 : 0 ≤ i) (hi : i < (files.length : Int)) :
    show_next_image ⟨files, i⟩
        = ⟨files, if i = (files.length : Int) - 1 then 0 else i + 1⟩
    ∧ show_previous_image ⟨files, i⟩
        = ⟨files, if i = 0 then (files.length : Int) - 1 else i - 1⟩ := by
  have hg : ¬ files.length ≤ 1 := by omega
  have hN' : (1 : Int) < (files.length : Int) := by exact_mod_cast hN
  constructor
  · show (if files.length ≤ 1 then _ else _) = _
    rw [if_neg hg]
    simp only [ViewerState.mk.injEq, true_and]
    split_ifs with h
    · subst h
      have he : (files.length : Int) - 1 + 1 = (files.length : Int) := by ring
      rw [he, Int.emod_self]
    · exact Int.emod_eq_of_lt (by omega) (by omega)
  · show (if files.length ≤ 1 then _ else _) = _
    rw [if_neg hg]
    simp only [ViewerState.mk.injEq, true_and]
    split_ifs with h
    · subst h
      have h1 : ((0 : Int) - 1) % (files.length : Int)
          = (-1 + (files.length : Int) * 1) % (files.length : Int) := by
        rw [Int.add_mul_emod_self_left]; norm_num
      rw [h1]
      have h2 : (-1 + (files.length : Int) * 1) = (files.length : Int) - 1 := by ring
      rw [h2]
      exact Int.emod_eq_of_lt (by omega) (by omega)
    · exact Int.emod_eq_of_lt (by omega) (by omega)

/-- Witness for C9 on the three-item list: next wraps 2 to 0, previous
wraps 0 to 2. -/
theorem c9_navigation_wraparound_witness :
    show_next_image ⟨["a", "b", "c"], 2⟩ = ⟨["a", "b", "c"], 0⟩
    ∧ show_previous_image ⟨["a", "b", "c"], 0⟩ = ⟨["a", "b", "c"], 2⟩ := by
  have h2 := c9_navigation_wraparound ["a", "b", "c"] 2
    (by decide) (by decide) (by norm_num)
  have h0 := c9_navigation_wraparound ["a", "b", "c"] 0
    (by decide) (by decide) (by norm_num)
  constructor
  · rw [h2.1]; norm_num
  · rw [h0.2]; norm_num

/-- C10: with an empty list or a cursor at or past the end,
display_current_image returns at its guard, displaying nothing and - as
on every path of the method - leaving the file list and cursor as they
were (displayTarget is a pure observation of the unchanged state); and
next/previous on a list of length at most one return immediately with
the state unchanged. -/
theorem c10_display_noop (s : ViewerState) :
    (s.image_files = [] ∨ (s.image_files.length : Int) ≤ s.current_index →
      displayTarget s = none)
    ∧ (s.image_files.length ≤ 1 →
      show_next_image s = s ∧ show_previous_image s = s) := by
  constructor
  · intro h
    simp [displayTarget, h]
  · intro h
    constructor <;> simp [show_next_image, show_previous_image, h]

/-- Witness for C10 at the empty list with a stale cursor. -/
theorem c10_display_noop_witness :
    displayTarget ⟨[], 5⟩ = none
    ∧ show_next_image ⟨[], 5⟩ = ⟨[], 5⟩ ∧ show_previous_image ⟨[], 5⟩ = ⟨[], 5⟩ := by
  have h := c10_display_noop ⟨[], 5⟩
  exact ⟨h.1 (Or.inl rfl), h.2 (by decide)⟩

/-- C2 counterexample: jumping to 500 on a ten-item list moves the
cursor (to 500), so the jump does not leave the cursor index unchanged,
and no error outcome exists anywhere in show_image_bynumber. -/
theorem c2_counterexample :
    (show_image_bynumber ⟨tenFiles, 0⟩ 500).current_index
      ≠ (⟨tenFiles, 0⟩ : ViewerState).current_index := by
  decide

/-- C2 amended: on a list of length > 1, show_image_bynumber assigns the
given value to the cursor unconditionally - it performs no range check
and reports no error - and when the value is at or past the end the
display call that follows is a no-op (the guard of
display_current_image), so nothing crashes and the file list is
untouched. -/
theorem c2_amended (s : ViewerState) (v : Int)
    (h : 1 < s.image_files.length) :
    show_image_bynumber s v = { s with current_index := v }
    ∧ ((s.image_files.length : Int) ≤ v →
        displayTarget (show_image_bynumber s v) = none) := by
  have hg : ¬ s.image_files.length ≤ 1 := by omega
  constructor
  · simp [show_image_bynumber, hg]
  · intro hv
    simp [show_image_bynumber, hg, displayTarget, hv]

/-- Witness for C2 amended: jump to 500 on a two-item list. -/
theorem c2_amended_witness :
    show_image_bynumber ⟨["a", "b"], 0⟩ 500 = ⟨["a", "b"], 500⟩
    ∧ displayTarget (show_image_bynumber ⟨["a", "b"], 0⟩ 500) = none := by
  have h := c2_amended ⟨["a", "b"], 0⟩ 500 (by decide)
  exact ⟨h.1, h.2 (by decide)⟩

/-- C1 counterexample: on a backend where the traversal yields zero
qualifying titles, the un-cancelled worker of main.py emits three
progress events and then the success event finished [] - no error event
of any kind appears.  The "No images found" error emission exists only
inside the commented-out block of run (and in the superseded mail.py
variant). -/
theorem c1_counterexample :
    mainRunEvents emptyBackend 1000 "Nature"
      = [Event.progress "Initializing Wikimedia Commons connection...",
         Event.progress "Loading category: Nature...",
         Event.progress "Successfully loaded 0 images",
         Event.finished []] := by
  decide

/-- C1 amended: whenever the traversal yields zero qualifying titles and
the worker is not cancelled before the fetch, run completes without
crashing and emits the success event carrying the empty sorted list,
never an error event. -/
theorem c1_amended (B : Backend) (category_name : String) (cancelAt : Nat)
    (hc : 2 ≤ cancelAt)
    (h : get_commons_files B 1 category_name = []) :
    mainRunEvents B cancelAt category_name
      = [Event.progress "Initializing Wikimedia Commons connection...",
         Event.progress ("Loading category: " ++ category_name ++ "..."),
         Event.progress "Successfully loaded 0 images",
         Event.finished []] := by
  have hl : list_files B category_name = [] := by
    rw [list_files, sortedSet, h]; rfl
  unfold mainRunEvents
  rw [if_neg (by omega), if_neg (by omega), hl]
  rfl

/-- Witness for C1 amended: the all-empty backend. -/
theorem c1_amended_witness :
    mainRunEvents emptyBackend 2 "Empty"
      = [Event.progress "Initializing Wikimedia Commons connection...",
         Event.progress ("Loading category: " ++ "Empty" ++ "..."),
         Event.progress "Successfully loaded 0 images",
         Event.finished []] :=
  c1_amended emptyBackend "Empty" 2 (by decide) (by decide)

/-- C5 counterexample: clearing the liveness flag right after the second
(and last) poll - that is, stop() arriving at any time after the
category fetch has begun and before run returns - does not prevent the
success emission: the finished event still appears in the trace.  The
fetch itself contains no poll, so the network requests are not stopped
either. -/
theorem c5_counterexample :
    Event.finished ["File:Cat.jpg"] ∈ mainRunEvents oneFileBackend 2 "Cats" := by
  decide

/-- C5 amended: cancellation suppresses the terminal events only when the
flag is cleared before one of the two pre-fetch liveness checks of run
(clearing before the first check yields no events, between the checks
only the first progress event); once both checks have passed - in
particular whenever stop() arrives after the fetch has started - the
worker runs the listing to completion and still emits the success event.
Error emissions are the only ones guarded by the flag after the fetch. -/
theorem c5_amended (B : Backend) (category_name : String) :
    mainRunEvents B 0 category_name = []
    ∧ mainRunEvents B 1 category_name
        = [Event.progress "Initializing Wikimedia Commons connection..."]
    ∧ ∀ cancelAt, 2 ≤ cancelAt →
        mainRunEvents B cancelAt category_name
          = [Event.progress "Initializing Wikimedia Commons connection...",
             Event.progress ("Loading category: " ++ category_name ++ "..."),
             Event.progress ("Successfully loaded "
               ++ toString (list_files B category_name).length ++ " images"),
             Event.finished (list_files B category_name)] := by
  refine ⟨rfl, rfl, ?_⟩
  intro cancelAt hc
  unfold mainRunEvents
  rw [if_neg (by omega), if_neg (by omega)]

/-- Witness for C5 amended: the one-file backend with the flag cleared
after the fifth poll (which is never reached). -/
theorem c5_amended_witness :
    mainRunEvents oneFileBackend 5 "Cats"
      = [Event.progress "Initializing Wikimedia Commons connection...",
         Event.progress ("Loading category: " ++ "Cats" ++ "..."),
         Event.progress ("Successfully loaded "
           ++ toString (list_files oneFileBackend "Cats").length ++ " images"),
         Event.finished (list_files oneFileBackend "Cats")] :=
  (c5_amended oneFileBackend "Cats").2.2 5 (by decide)

/-- The Python string order is total. -/
theorem strLeb_total : ∀ a b : List Char, strLeb a b = true ∨ strLeb b a = true
  | [], _ => Or.inl rfl
  | _ :: _, [] => Or.inr rfl
  | x :: xs, y :: ys => by
      by_cases hxy : x = y
      · subst hxy
        simpa [strLeb] using strLeb_total xs ys
      · rcases lt_or_gt_of_ne hxy with h | h
        · left; simp [strLeb, hxy, h]
        · right; simp [strLeb, Ne.symm hxy, h]

/-- The Python string order is transitive. -/
theorem strLeb_trans : ∀ a b c : List Char,
    strLeb a b = true → strLeb b c = true → strLeb a c = true
  | [], _, _, _, _ => rfl
  | _ :: _, [], _, h1, _ => by simp [strLeb] at h1
  | _ :: _, _ :: _, [], _, h2 => by simp [strLeb] at h2
  | x :: xs, y :: ys, z :: zs, h1, h2 => by
      by_cases hxy : x = y <;> by_cases hyz : y = z
      · subst hxy; subst hyz
        simp [strLeb] at h1 h2 ⊢
        exact strLeb_trans _ _ _ h1 h2
      · subst hxy
        simp [strLeb, hyz] at h2 ⊢
        simp [hyz, h2]
      · subst hyz
        simp [strLeb, hxy] at h1 ⊢
        simp [hxy, h1]
      · simp [strLeb, hxy] at h1
        simp [strLeb, hyz] at h2
        have hxz : x < z := lt_trans h1 h2
        simp [strLeb, ne_of_lt hxz, hxz]

instance : IsTotal String pyStrLe := ⟨fun a b => strLeb_total a.data b.data⟩

instance : IsTrans String pyStrLe := ⟨fun a b c => strLeb_trans a.data b.data c.data⟩

/-- C3: every listing the worker delivers is sorted and duplicate-free,
holding each title of the traversal exactly once; and the two-page
scenario with the accumulation A.jpg, B.jpg, B.jpg yields exactly
["A.jpg", "B.jpg"]. -/
theorem c3_sorted_dedup :
    (∀ (B : Backend) (category_name : String),
        (list_files B category_name).Sorted pyStrLe
        ∧ (list_files B category_name).Nodup
        ∧ ∀ t, (list_files B category_name).count t
            = if t ∈ get_commons_files B 1 category_name then 1 else 0)
    ∧ list_files twoPageBackend "Example" = ["A.jpg", "B.jpg"] := by
  constructor
  · intro B category_name
    refine ⟨List.sorted_insertionSort pyStrLe _, ?_, ?_⟩
    · exact ((List.perm_insertionSort pyStrLe _).nodup_iff).mpr
        (List.nodup_dedup _)
    · intro t
      rw [list_files, sortedSet,
        (List.perm_insertionSort pyStrLe _).count_eq, List.count_dedup]
  · decide

/-- C4: for every backend - in particular one whose category graph
contains a cycle - and every depth, the lister is a total function (the
recursion is structural in the depth bound, which is the termination
argument of the source) and its result holds each file at most once; on
the cyclic backend, where Category:A lists itself as a subcategory, the
traversal terminates at every depth and returns X.jpg exactly once. -/
theorem c4_cycle_terminates :
    (∀ (B : Backend) (depth : Nat) (category_name : String),
        (get_commons_files B depth category_name).Nodup
        ∧ ∀ t, (get_commons_files B depth category_name).count t ≤ 1)
    ∧ get_commons_files cyclicBackend 1 "A" = ["X.jpg"]
    ∧ get_commons_files cyclicBackend 5 "A" = ["X.jpg"]
    ∧ list_files cyclicBackend "A" = ["X.jpg"] := by
  refine ⟨?_, by decide, by decide, by decide⟩
  intro B depth category_name
  have hn : (get_commons_files B depth category_name).Nodup := by
    cases depth <;> exact List.nodup_dedup _
  exact ⟨hn, fun t => List.nodup_iff_count_le_one.mp hn t⟩

/-- A statement that contributes no entity id leaves license_name as it
is. -/
theorem licenseStep_of_none (labels : EntityLabels) (c : LicenseClaim)
    (h : licenseQid c = none) (s : String) : licenseStep labels s c = s := by
  obtain ⟨m⟩ := c
  match m with
  | none => rfl
  | some none => rfl
  | some (some q) => simp [licenseQid] at h

/-- A run of the P275 loop over statements contributing no entity id
keeps the accumulator. -/
theorem licenseFold_skip (labels : EntityLabels) :
    ∀ (claims : List LicenseClaim) (init : String),
      claims.filterMap licenseQid = [] →
      claims.foldl (licenseStep labels) init = init
  | [], _, _ => rfl
  | c :: cs, init, h => by
      cases hc : licenseQid c with
      | some q0 => rw [List.filterMap_cons_some hc] at h; cases h
      | none =>
          rw [List.filterMap_cons_none hc] at h
          rw [List.foldl_cons, licenseStep_of_none labels c hc]
          exact licenseFold_skip labels cs init h

/-- The P275 loop resolves the label of the last contributing statement,
whatever the accumulator held before. -/
theorem licenseFold_from (labels : EntityLabels) :
    ∀ (claims : List LicenseClaim) (init q : String),
      (claims.filterMap licenseQid).getLast? = some q →
      claims.foldl (licenseStep labels) init = (labels q).getD q
  | [], _, _, h => by simp at h
  | c :: cs, init, q, h => by
      cases hc : licenseQid c with
      | none =>
          rw [List.filterMap_cons_none hc] at h
          rw [List.foldl_cons, licenseStep_of_none labels c hc]
          exact licenseFold_from labels cs init q h
      | some q0 =>
          rw [List.filterMap_cons_some hc] at h
          have hstep : licenseStep labels init c = (labels q0).getD q0 := by
            obtain ⟨m⟩ := c
            match m, hc with
            | some (some q1), hc => cases hc; rfl
            | some none, hc => simp [licenseQid] at hc
            | none, hc => simp [licenseQid] at hc
          rw [List.foldl_cons, hstep]
          cases hcs : cs.filterMap licenseQid with
          | nil =>
              rw [hcs] at h
              simp only [List.getLast?_singleton, Option.some.injEq] at h
              subst h
              exact licenseFold_skip labels cs _ hcs
          | cons a as =>
              rw [hcs, List.getLast?_cons_cons, ← hcs] at h
              exact licenseFold_from labels cs _ q h

/-- Label table for the resolver theorems: Q2 carries the English label
"CC0 1.0", every other entity has none. -/
def demoLabels : EntityLabels :=
  fun q => if q = "Q2" then some "CC0 1.0" else none

/-- C6 counterexample: a file whose statements hold one P275 statement
referencing Q2 (whose English label is "CC0 1.0") together with a
creator statement whose mainsnak has no datavalue.  The P170 else branch
raises KeyError, the surrounding try/except returns the empty dict, and
the license the viewer sees is the "Unknown license" default - not the
last license statement's label, falsifying the claim at this input. -/
theorem c6_counterexample :
    displayedLicense (get_structured_data demoLabels
        [{ mainsnak := some (some "Q2") }]
        [{ hasMainsnak := true, mainsnakId := none,
           qualifiersP2093 := none }])
      ≠ (demoLabels "Q2").getD "Q2" := by
  decide

/-- C6 amended: when the P170 processing completes without exception,
the resolver's license is the English label of the entity referenced by
the last P275 statement processed (the last one with a mainsnak carrying
a datavalue), falling back to that entity's raw identifier when no
English label exists; but when a creator statement raises (KeyError
reading a mainsnak without datavalue), the whole resolution returns the
empty record, the computed license is discarded, and the displayed
license degrades to the "Unknown license" default. -/
theorem c6_amended (labels : EntityLabels)
    (p275 : List LicenseClaim) (p170 : List CreatorClaim)
    (q : String)
    (hq : (p275.filterMap licenseQid).getLast? = some q) :
    (∀ author_name,
      p170.foldlM (creatorStep labels) "" = Except.ok author_name →
      get_structured_data labels p275 p170
        = some { license := (labels q).getD q, author := author_name })
    ∧ (∀ e, p170.foldlM (creatorStep labels) "" = Except.error e →
      get_structured_data labels p275 p170 = none
      ∧ displayedLicense (get_structured_data labels p275 p170)
          = "Unknown license") := by
  constructor
  · intro author_name ha
    unfold get_structured_data
    rw [ha]
    rw [show licenseFold labels p275 = (labels q).getD q from
      licenseFold_from labels p275 _ q hq]
  · intro e he
    have h1 : get_structured_data labels p275 p170 = none := by
      unfold get_structured_data
      rw [he]
    exact ⟨h1, by rw [h1]; rfl⟩

/-- Witness for C6 amended, applying both branches: on the success side
two license statements where the second (Q2, labelled "CC0 1.0") wins
over the first (Q1); on the exception side a creator statement whose
mainsnak has no datavalue, which discards the resolution. -/
theorem c6_amended_witness :
    get_structured_data demoLabels
        [{ mainsnak := some (some "Q1") }, { mainsnak := some (some "Q2") }] []
      = some { license := "CC0 1.0", author := "" }
    ∧ get_structured_data demoLabels
        [{ mainsnak := some (some "Q2") }]
        [{ hasMainsnak := true, mainsnakId := none,
           qualifiersP2093 := none }]
      = none := by
  have h1 := (c6_amended demoLabels
    [{ mainsnak := some (some "Q1") }, { mainsnak := some (some "Q2") }] []
    "Q2" (by decide)).1 "" rfl
  have h2 := (c6_amended demoLabels
    [{ mainsnak := some (some "Q2") }]
    [{ hasMainsnak := true, mainsnakId := none, qualifiersP2093 := none }]
    "Q2" (by decide)).2 "KeyError" rfl
  constructor
  · simpa [demoLabels] using h1
  · exact h2.1

/-- C7: the resolver's author is the P2093 plain-text qualifier when the
creator statement carries one; otherwise the creator entity's English
label with the raw identifier as fallback; with no creator statement the
author is the empty string; and for a file with a license statement but
an author statement whose entity cannot be read (the KeyError path of
the else branch), the displayed author is "" while the displayed license
is the non-empty "Unknown license" default. -/
theorem c7_author_resolution (labels : EntityLabels) :
    (∀ (p275 : List LicenseClaim) (mainsnakId : Option String)
        (t : String) (qs : List (Option String)),
        get_structured_data labels p275
            [{ hasMainsnak := true, mainsnakId := mainsnakId,
               qualifiersP2093 := some (some t :: qs) }]
          = some { license := licenseFold labels p275, author := t })
    ∧ (∀ (p275 : List LicenseClaim) (q : String),
        get_structured_data labels p275
            [{ hasMainsnak := true, mainsnakId := some q,
               qualifiersP2093 := none }]
          = some { license := licenseFold labels p275,
                   author := (labels q).getD q })
    ∧ (∀ (p275 : List LicenseClaim),
        get_structured_data labels p275 []
          = some { license := licenseFold labels p275, author := "" })
    ∧ displayedAuthor (get_structured_data labels
          [{ mainsnak := some (some "Q5") }]
          [{ hasMainsnak := true, mainsnakId := none,
             qualifiersP2093 := none }]) = ""
    ∧ displayedLicense (get_structured_data labels
          [{ mainsnak := some (some "Q5") }]
          [{ hasMainsnak := true, mainsnakId := none,
             qualifiersP2093 := none }]) = "Unknown license" :=
  ⟨fun _ _ _ _ => rfl, fun _ _ => rfl, fun _ => rfl, rfl, rfl⟩

/-- The characters of a title after its last dot. -/
def extChars (t : List Char) : List Char :=
  (t.reverse.takeWhile (fun c => c != '.')).reverse

/-- The extension of a title: the characters after the last dot, when the
title contains a dot at all. -/
def lastExtension (title : String) : Option (List Char) :=
  if '.' ∈ title.data then some (extChars title.data) else none

/-- The allow-list of image formats named by the specification. -/
def allowedExtensions : List (List Char) :=
  ["jpg".data, "jpeg".data, "png".data, "gif".data, "svg".data,
   "webp".data, "tiff".data, "tif".data, "bmp".data, "ico".data]

/-- The acceptance predicate in the specification's words, for comparison
with the code's extCheck: a title is accepted exactly when its extension,
compared case-insensitively, is one of the ten allowed formats. -/
def specAccepts (title : String) : Bool :=
  match lastExtension title with
  | some e => decide ((e.map lowerChar) ∈ allowedExtensions)
  | none => false

/-- Lowercasing maps no character onto the dot except the dot itself. -/
theorem lowerChar_eq_dot_iff (c : Char) : lowerChar c = '.' ↔ c = '.' := by
  unfold lowerChar
  split <;> simp_all

/-- Boolean form of lowerChar_eq_dot_iff. -/
theorem lowerChar_bne_dot (c : Char) : (lowerChar c != '.') = (c != '.') := by
  by_cases h : c = '.'
  · subst h; rfl
  · have h2 : lowerChar c ≠ '.' := fun hh => h ((lowerChar_eq_dot_iff c).mp hh)
    rw [Bool.eq_iff_iff]
    simp [h, h2]

/-- Lowercasing a title neither creates nor destroys dots. -/
theorem mem_dot_map_lower (t : List Char) :
    '.' ∈ t.map lowerChar ↔ '.' ∈ t := by
  rw [List.mem_map]
  constructor
  · rintro ⟨a, ha, hla⟩
    rw [lowerChar_eq_dot_iff] at hla
    exact hla ▸ ha
  · intro h
    exact ⟨'.', h, rfl⟩

/-- Taking the extension commutes with lowercasing the title. -/
theorem extChars_map_lower (t : List Char) :
    extChars (t.map lowerChar) = (extChars t).map lowerChar := by
  have hp : ((fun c => c != '.') ∘ lowerChar) = (fun c => c != '.') :=
    funext fun c => lowerChar_bne_dot c
  unfold extChars
  rw [← List.map_reverse, List.takeWhile_map, hp, ← List.map_reverse]

/-- The head of a dropWhile residue falsifies the predicate. -/
theorem dropWhile_head_false {α : Type} (p : α → Bool) :
    ∀ (l : List α) (x : α) (xs : List α),
      l.dropWhile p = x :: xs → p x = false
  | [], x, xs, h => by simp [List.dropWhile] at h
  | a :: l, x, xs, h => by
      rw [List.dropWhile_cons] at h
      by_cases hp : p a
      · rw [if_pos hp] at h
        exact dropWhile_head_false p l x xs h
      · rw [if_neg hp] at h
        cases h
        simpa using hp

/-- A dot-free block followed by a dot is a prefix of r exactly when r
contains a dot and its maximal dot-free prefix is that block. -/
theorem prefix_dotted {d r : List Char} (hd : '.' ∉ d) :
    (d ++ ['.']) <+: r
      ↔ ('.' ∈ r ∧ r.takeWhile (fun c => c != '.') = d) := by
  constructor
  · rintro ⟨s, hs⟩
    subst hs
    have hall : ∀ a ∈ d, (fun c => c != '.') a = true := by
      intro a ha
      simp only [bne_iff_ne, ne_eq]
      exact fun he => hd (he ▸ ha)
    constructor
    · simp
    · rw [List.append_assoc, List.singleton_append,
        List.takeWhile_append_of_pos hall]
      rw [List.takeWhile_cons_of_neg (by simp)]
      simp
  · rintro ⟨hmem, htake⟩
    have hsplit := List.takeWhile_append_dropWhile (p := fun c => c != '.')
      (l := r)
    cases hdrop : r.dropWhile (fun c => c != '.') with
    | nil =>
        exfalso
        rw [hdrop, List.append_nil, htake] at hsplit
        exact hd (hsplit ▸ hmem)
    | cons x xs =>
        have hx : ((fun c => c != '.') x) = false :=
          dropWhile_head_false _ r x xs hdrop
        have hx' : x = '.' := by simpa using hx
        subst hx'
        refine ⟨xs, ?_⟩
        rw [List.append_assoc, List.singleton_append, ← htake, ← hdrop]
        exact hsplit

/-- A dot followed by a dot-free block is a suffix of t exactly when t
contains a dot and the block is what follows t's last dot. -/
theorem suffix_dotted {e t : List Char} (he : '.' ∉ e) :
    ('.' :: e) <:+ t ↔ ('.' ∈ t ∧ extChars t = e) := by
  have hd : '.' ∉ e.reverse := by simpa using he
  rw [← List.reverse_prefix, List.reverse_cons, prefix_dotted hd]
  unfold extChars
  constructor
  · rintro ⟨h1, h2⟩
    exact ⟨List.mem_reverse.mp h1, by rw [h2]; exact List.reverse_reverse e⟩
  · rintro ⟨h1, h2⟩
    refine ⟨List.mem_reverse.mpr h1, ?_⟩
    rw [← h2, List.reverse_reverse]

/-- One endswith test of the filter, characterised through the title's
last dot: the lowered title ends in "." followed by the dot-free block e
exactly when the title has an extension whose lowercasing is e. -/
theorem suffix_match_iff (title : String) (e : List Char) (he : '.' ∉ e) :
    (('.' :: e).isSuffixOf (lowerData title)) = true
      ↔ ('.' ∈ title.data ∧ (extChars title.data).map lowerChar = e) := by
  rw [List.isSuffixOf_iff_suffix, suffix_dotted he]
  unfold lowerData
  rw [mem_dot_map_lower, extChars_map_lower]

/-- The spec-side acceptance predicate, unfolded. -/
theorem specAccepts_iff (title : String) :
    specAccepts title = true
      ↔ ('.' ∈ title.data
          ∧ (extChars title.data).map lowerChar ∈ allowedExtensions) := by
  unfold specAccepts lastExtension
  split_ifs with h
  · simp [h]
  · simp [h]

/-- The code-side filter, characterised the same way. -/
theorem extCheck_iff (title : String) :
    extCheck title = true
      ↔ ('.' ∈ title.data
          ∧ (extChars title.data).map lowerChar ∈ allowedExtensions) := by
  unfold extCheck
  rw [List.any_eq_true]
  constructor
  · rintro ⟨s, hs, hsuf⟩
    simp only [image_suffixes, List.mem_cons, List.not_mem_nil, or_false] at hs
    rcases hs with rfl | rfl | rfl | rfl | rfl | rfl | rfl | rfl | rfl | rfl <;>
      exact ⟨((suffix_match_iff title _ (by decide)).mp hsuf).1,
        by rw [((suffix_match_iff title _ (by decide)).mp hsuf).2]; decide⟩
  · rintro ⟨hdot, hmem⟩
    refine ⟨'.' :: (extChars title.data).map lowerChar, ?_, ?_⟩
    · have him : image_suffixes = allowedExtensions.map (fun e => '.' :: e) := by
        decide
      rw [him]
      exact List.mem_map_of_mem _ hmem
    · have hnd : '.' ∉ (extChars title.data).map lowerChar := by
        have hall : ∀ y ∈ allowedExtensions, '.' ∉ y := by decide
        exact hall _ hmem
      rw [suffix_match_iff title _ hnd]
      exact ⟨hdot, rfl⟩

/-- C8: a file-namespace member is taken into the accumulated listing
exactly when the specification's predicate holds - its title has an
extension that, compared case-insensitively, is one of jpg, jpeg, png,
gif, svg, webp, tiff, tif, bmp, ico; and on every title the code's
filter coincides with that predicate. -/
theorem c8_extension_allowlist (recurseInto : Option (String → List String))
    (acc : List String) (m : Member) :
    (m.ns = 6 →
      memberStep recurseInto acc m
        = (if specAccepts m.title then acc ++ [m.title] else acc))
    ∧ (extCheck m.title = true ↔ specAccepts m.title = true) := by
  have hiff : extCheck m.title = true ↔ specAccepts m.title = true :=
    (extCheck_iff m.title).trans (specAccepts_iff m.title).symm
  have hb : extCheck m.title = specAccepts m.title := by
    rw [Bool.eq_iff_iff]; exact hiff
  refine ⟨?_, hiff⟩
  intro h6
  unfold memberStep
  rw [if_pos h6, hb]

/-- Witness for C8: the uppercase title File:Photo.JPG is accepted. -/
theorem c8_extension_allowlist_witness :
    memberStep none [] { ns := 6, title := "File:Photo.JPG" }
      = ["File:Photo.JPG"]
    ∧ (extCheck "File:Photo.JPG" = true
        ↔ specAccepts "File:Photo.JPG" = true) := by
  have h := c8_extension_allowlist none [] { ns := 6, title := "File:Photo.JPG" }
  constructor
  · rw [h.1 rfl]
    decide
  · exact h.2
